import Mathlib

/-!
# Verification of the Xendit webhook reconciliation plugin

Shallow embedding of the `custom-vendure-mini-commerce` Xendit payment
plugin, covering the pieces the specification's claims are about:

* `XenditService.verifyCallback` (src/unnamed/part_000, the service file):
  the callback-token verifier;
* `XenditController.webhook` (src/src/plugins/xendit/xendit.controller.ts):
  the webhook reconciler, embedded as a pure function over an explicit
  environment of mocked collaborators (Order Store, Payment Method
  Registry, plugin options) that also records the ordered trace of
  collaborator calls it issues;
* `XenditService.createRefund` and the payment-method handler's
  `createRefund` (src/src/plugins/xendit/xendit.handler.ts).

JavaScript truthiness matters for `verifyCallback` (its result is the raw
value of a `&&` chain: `undefined`, a number, or a boolean), so those
values are embedded explicitly as `JsVal`.
-/

namespace Xendit

/-- The value of the JavaScript expression
`options?.callbackToken?.length && options?.callbackToken !== callbackToken`:
`undefined` when the option chain short-circuits, the number
`callbackToken.length` when that length is `0` (the `&&` returns its falsy
left operand), and otherwise the boolean result of the `!==` comparison. -/
inductive JsVal where
  | undef : JsVal
  | num : Nat → JsVal
  | bool : Bool → JsVal
  deriving Repr, DecidableEq

/-- JavaScript truthiness for the values `verifyCallback` can produce:
`undefined` and `0` are falsy, a non-zero number is truthy, a boolean is
itself. -/
def JsVal.truthy : JsVal → Bool
  | .undef => false
  | .num n => n != 0
  | .bool b => b

/-- `XenditService.verifyCallback(callbackToken?: string)` from the service
file: `return this.options?.callbackToken?.length && this.options?.callbackToken !== callbackToken`.
`configured` is `this.options.callbackToken` (`none` when the optional
plugin option is absent); `presented` is the argument (`none` when called
with `undefined`). The result is truthy exactly when it reports a
mismatch. The method performs no I/O and cannot throw (every access is
optionally chained), so it is a total function. -/
def verifyCallback (configured : Option String) (presented : Option String) : JsVal :=
  match configured with
  | none => JsVal.undef
  | some c => if c.length = 0 then JsVal.num c.length else JsVal.bool (some c != presented)

/-- The service method as the controller's `try`/`catch` sees it: a value
or a thrown exception. `XenditService.verifyCallback` never throws, so the
embedding always returns `Except.ok`; the error branch exists so the
controller's `catch` arm can be embedded faithfully. -/
def verifyCallbackCall (configured : Option String) (presented : Option String) :
    Except String JsVal :=
  Except.ok (verifyCallback configured presented)

/-- `XenditCallbackRequest` (types.ts), restricted to the fields the
controller reads (`description`, `external_id`, `id`) plus the
informational fields; the whole record is what `addPaymentToOrder`
receives as `metadata`. -/
structure XenditCallbackRequest where
  id : String
  amount : Int
  status : String
  description : String
  external_id : String
  deriving Repr, DecidableEq

/-- An order as the webhook uses it: identity, human-facing `code`, and
lifecycle `state` string. -/
structure Order where
  id : Nat
  code : String
  state : String
  deriving Repr, DecidableEq

/-- A configured `PaymentMethod` entry: its own `code` and its handler's
code (`m.handler.code` in the controller's lookup). -/
structure PaymentMethod where
  code : String
  handlerCode : String
  deriving Repr, DecidableEq

/-- `xenditPaymentMethodHandler.code` from xendit.handler.ts. -/
def xenditHandlerCode : String := "xendit"

/-- The logger context imported from constant.ts. That file is not among
the provided sources; the string only prefixes log lines and one error
message and no claim depends on its value. -/
def loggerCtx : String := "XenditPlugin"

/-- Result of `orderService.transitionToState`: either the updated order
or an `OrderStateTransitionError` (the only error shape the controller
tests for, via `instanceof`). -/
inductive TransitionResult where
  | ok : Order → TransitionResult
  | stateError : String → TransitionResult
  deriving Repr, DecidableEq

/-- Result of `orderService.addPaymentToOrder`: an `Order` on success or
an error-shaped object carrying a message (the controller only checks
`instanceof Order`). -/
inductive AddPaymentResult where
  | order : Order → AddPaymentResult
  | error : String → AddPaymentResult
  deriving Repr, DecidableEq

/-- The argument object of `addPaymentToOrder`:
`{ method: paymentMethod.code, metadata: xenditPayment }`. -/
structure PaymentInput where
  method : String
  metadata : XenditCallbackRequest
  deriving Repr, DecidableEq

/-- One collaborator call issued by the webhook handler, in issue order. -/
inductive Call where
  | verifyCallback : String → Call
  | findOneByCode : String → Call
  | transitionToState : Nat → String → Call
  | addPaymentToOrder : Nat → PaymentInput → Call
  deriving Repr, DecidableEq

/-- Is this a call on the Order Store (`findOneByCode`,
`transitionToState`, or `addPaymentToOrder`)? -/
def Call.isOrderStore : Call → Bool
  | .findOneByCode _ => true
  | .transitionToState _ _ => true
  | .addPaymentToOrder _ _ => true
  | .verifyCallback _ => false

/-- Is this a `transitionToState` call? -/
def Call.isTransition : Call → Bool
  | .transitionToState _ _ => true
  | _ => false

/-- Is this an `addPaymentToOrder` call? -/
def Call.isAddPayment : Call → Bool
  | .addPaymentToOrder _ _ => true
  | _ => false

/-- The two exceptions the handler can let escape: the plain
`Error` thrown when the order is not found, and the
`InternalServerError` thrown by `getPaymentMethod`. -/
inductive ThrownError where
  | orderNotFound : String → ThrownError
  | internalServerError : String → ThrownError
  deriving Repr, DecidableEq

/-- How the webhook handler finishes: it sends an HTTP response, returns
without sending one (the logged-and-stopped branches), or lets an
exception propagate. -/
inductive Outcome where
  | responded : Nat → String → Outcome
  | noResponse : Outcome
  | threw : ThrownError → Outcome
  deriving Repr, DecidableEq

/-- Environment of mocked collaborators for one webhook invocation:
the configured plugin options and the behaviour of the Order Store and
the Payment Method repository. -/
structure Env where
  configuredToken : Option String
  findOneByCode : String → Option Order
  transitionToState : Nat → String → TransitionResult
  paymentMethods : List PaymentMethod
  addPaymentToOrder : Nat → PaymentInput → AddPaymentResult

/-- The inbound request as the handler sees it: the `x-callback-token`
header (`none` when absent) and the parsed JSON body (`none` when absent
or falsy). -/
structure WebhookRequest where
  callbackToken : Option String
  body : Option XenditCallbackRequest

/-- The handler's observable behaviour: how it finished, plus the ordered
trace of collaborator calls it issued. -/
structure WebhookResult where
  outcome : Outcome
  calls : List Call
  deriving Repr, DecidableEq

/-- The string-literal error messages declared at the top of
xendit.controller.ts. -/
def missingHeaderErrorMessage : String := "Missing xendit-signature header"

/-- The fixed bad-signature message sent from the `catch` arm. -/
def signatureErrorMessage : String := "Error verifying Xendit webhook signature"

/-- The fixed missing-body message. -/
def noPaymentIntentErrorMessage : String := "No payment intent in the event payload"

/-- `XenditController.getPaymentMethod`: fetch all `PaymentMethod` rows and
take the first whose `handler.code` equals the Xendit handler code; throw
an `InternalServerError` when none matches. -/
def getPaymentMethod (methods : List PaymentMethod) : Except ThrownError PaymentMethod :=
  match methods.find? (fun m => m.handlerCode == xenditHandlerCode) with
  | some m => Except.ok m
  | none =>
      Except.error (ThrownError.internalServerError
        ("[" ++ loggerCtx ++ "] Could not find Xendit PaymentMethod"))

/-- The tail of the webhook after the transition guard: resolve the
payment method (propagating its `InternalServerError`), then add the
payment with the resolved method's code and the full notification body as
metadata; respond `200 "Ok"` only when `addPaymentToOrder` returns an
`Order`. -/
def webhookAfterTransition (env : Env) (xenditPayment : XenditCallbackRequest)
    (order : Order) (calls : List Call) : WebhookResult :=
  match getPaymentMethod env.paymentMethods with
  | Except.error e => { outcome := Outcome.threw e, calls := calls }
  | Except.ok paymentMethod =>
      let input : PaymentInput := { method := paymentMethod.code, metadata := xenditPayment }
      let calls := calls ++ [Call.addPaymentToOrder order.id input]
      match env.addPaymentToOrder order.id input with
      | AddPaymentResult.order _ =>
          { outcome := Outcome.responded 200 "Ok", calls := calls }
      | AddPaymentResult.error _ =>
          -- `Logger.error(...)` then `return;`: no response is sent.
          { outcome := Outcome.noResponse, calls := calls }

/-- The tail of the webhook after the order has been located: the
`order.state !== 'ArrangingPayment'` transition guard, payment-method
resolution, and `addPaymentToOrder`. `calls` is the trace accumulated so
far. -/
def webhookFromOrder (env : Env) (xenditPayment : XenditCallbackRequest)
    (order : Order) (calls : List Call) : WebhookResult :=
  if order.state ≠ "ArrangingPayment" then
    let calls := calls ++ [Call.transitionToState order.id "ArrangingPayment"]
    match env.transitionToState order.id "ArrangingPayment" with
    | TransitionResult.stateError _ =>
        -- `Logger.error(...)` then `return;`: no response is sent.
        { outcome := Outcome.noResponse, calls := calls }
    | TransitionResult.ok _ => webhookAfterTransition env xenditPayment order calls
  else
    webhookAfterTransition env xenditPayment order calls

/-- `XenditController.webhook`, embedded as a pure function from the
environment and the request to the outcome plus the ordered call trace.
Mirrors the source line by line: the `!callbackToken` guard (true for an
absent header and for the empty string), the `try { await verifyCallback }`
whose **return value is discarded** (only a thrown exception reaches the
400 branch), the `!xenditPayment` body guard, the channel-token split,
order lookup, transition guard, payment-method resolution, and
`addPaymentToOrder`. -/
def webhook (env : Env) (req : WebhookRequest) : WebhookResult :=
  match req.callbackToken with
  | none =>
      { outcome := Outcome.responded 400 missingHeaderErrorMessage, calls := [] }
  | some tok =>
      if tok.length = 0 then
        -- JavaScript `!callbackToken` is also true for the empty string.
        { outcome := Outcome.responded 400 missingHeaderErrorMessage, calls := [] }
      else
        let calls := [Call.verifyCallback tok]
        match verifyCallbackCall env.configuredToken (some tok) with
        | Except.error _ =>
            { outcome := Outcome.responded 400 signatureErrorMessage, calls := calls }
        | Except.ok _ =>
            -- The mismatch flag returned by verifyCallback is not inspected.
            match req.body with
            | none =>
                { outcome := Outcome.responded 400 noPaymentIntentErrorMessage,
                  calls := calls }
            | some xenditPayment =>
                let _channelToken := (xenditPayment.description.splitOn "_").headD ""
                let orderCode := xenditPayment.external_id
                let calls := calls ++ [Call.findOneByCode orderCode]
                match env.findOneByCode orderCode with
                | none =>
                    { outcome := Outcome.threw (ThrownError.orderNotFound
                        ("Unable to find order " ++ orderCode ++
                          ", unable to settle payment " ++ xenditPayment.id ++ "!")),
                      calls := calls }
                | some order => webhookFromOrder env xenditPayment order calls

/-- `XenditService.createRefund(paymentIntentId, amount)`: the body is a
bare `return;`, so the embedding ignores both arguments and returns the
unit value. -/
def XenditService.createRefund (_paymentIntentId : String) (_amount : Int) : Unit := ()

/-- The `payment` argument of the handler's `createRefund`, restricted to
the one field it reads. -/
structure Payment where
  transactionId : String
  deriving Repr, DecidableEq

/-- A `CreateRefundResult` as the handler produces it: a refund state
string and a transaction id. -/
structure CreateRefundResult where
  state : String
  transactionId : String
  deriving Repr, DecidableEq

/-- `xenditPaymentMethodHandler.createRefund` from xendit.handler.ts:
returns `{ state: 'Settled', transactionId: payment.transactionId }`
without contacting the provider. -/
def handlerCreateRefund (payment : Payment) : CreateRefundResult :=
  { state := "Settled", transactionId := payment.transactionId }

end Xendit

namespace Xendit

/-! ## Helper lemmas -/

/-- A string has length zero exactly when it is the empty string. -/
theorem length_eq_zero_iff {s : String} : s.length = 0 ↔ s = "" := by
  constructor
  · intro h
    cases s with
    | mk data =>
      have hd : data = [] := List.length_eq_zero.mp h
      simp [hd]
  · intro h; subst h; rfl

/-- `webhookAfterTransition` either leaves the trace unchanged (the
payment-method-missing branch) or appends exactly one
`addPaymentToOrder` call built from the resolved method. -/
theorem afterTransition_calls (env : Env) (xp : XenditCallbackRequest) (o : Order)
    (calls : List Call) :
    (webhookAfterTransition env xp o calls).calls = calls ∨
    ∃ pm, getPaymentMethod env.paymentMethods = Except.ok pm ∧
      (webhookAfterTransition env xp o calls).calls =
        calls ++ [Call.addPaymentToOrder o.id { method := pm.code, metadata := xp }] := by
  cases hga : getPaymentMethod env.paymentMethods with
  | error e => left; simp [webhookAfterTransition, hga]
  | ok pm =>
    right
    refine ⟨pm, rfl, ?_⟩
    cases hadd : env.addPaymentToOrder o.id { method := pm.code, metadata := xp } with
    | order o2 => simp [webhookAfterTransition, hga, hadd]
    | error m => simp [webhookAfterTransition, hga, hadd]

/-! ## Concrete fixtures used by witnesses and counterexamples -/

/-- An order in the `AddingItems` state, as in the happy-path scenario. -/
def ordAdding : Order := { id := 7, code := "ORD123", state := "AddingItems" }

/-- The same order after transitioning to `ArrangingPayment`. -/
def ordArranging : Order := { id := 7, code := "ORD123", state := "ArrangingPayment" }

/-- The scenario notification
`{external_id: "ORD123", description: "tenant1_55", id: "inv-1"}`. -/
def notifScenario : XenditCallbackRequest :=
  { id := "inv-1", amount := 55, status := "PAID",
    description := "tenant1_55", external_id := "ORD123" }

/-- A fully healthy environment: configured token `"xyz"`, order
`ORD123` present in `AddingItems`, transition succeeds, one payment
method registered under the Xendit handler code, payment add succeeds. -/
def envOk : Env :=
  { configuredToken := some "xyz"
    findOneByCode := fun c => if c = "ORD123" then some ordAdding else none
    transitionToState := fun _ _ => TransitionResult.ok ordArranging
    paymentMethods := [{ code := "xendit-pm", handlerCode := "xendit" }]
    addPaymentToOrder := fun _ _ => AddPaymentResult.order ordArranging }

/-- Like `envOk` but the order lookup finds nothing. -/
def envNoOrder : Env :=
  { envOk with findOneByCode := fun _ => none }

/-- Like `envOk` but every state transition is rejected. -/
def envTransitionRejected : Env :=
  { envOk with transitionToState := fun _ _ => TransitionResult.stateError "cannot transition" }

/-- Like `envOk` but the order is already in `ArrangingPayment` and no
payment method is registered. -/
def envNoPaymentMethod : Env :=
  { envOk with
      findOneByCode := fun c => if c = "ORD123" then some ordArranging else none
      paymentMethods := [] }


/-! ## Claim theorems -/

/-- C1: the claim says a webhook whose `x-callback-token` differs from the
configured token (presented `"abc"`, configured `"xyz"`) is answered with
`400` and the fixed bad-signature message and causes zero Order Store
calls. The code violates this: `verifyCallback` does report the mismatch
(its result is truthy), but the controller discards the returned flag and
only catches exceptions, which `verifyCallback` never raises — so the
request is processed in full: the order is looked up, transitioned, a
payment is added, and the handler answers `200 "Ok"`. -/
theorem webhook_mismatched_token_still_processed :
    (verifyCallback (some "xyz") (some "abc")).truthy = true ∧
    webhook envOk { callbackToken := some "abc", body := some notifScenario } =
      { outcome := Outcome.responded 200 "Ok",
        calls := [Call.verifyCallback "abc", Call.findOneByCode "ORD123",
                  Call.transitionToState 7 "ArrangingPayment",
                  Call.addPaymentToOrder 7
                    { method := "xendit-pm", metadata := notifScenario }] } :=
  ⟨rfl, rfl⟩

/-- C2 counterexample: the claim states `verifyCallback` reports a valid
signature iff no token is configured or the configured and presented
strings are exactly equal. False at configured = `some ""`,
presented = `"abc"`: the check short-circuits on the configured token's
zero length and reports valid although a token (the empty string) is
configured and differs from the presented one. -/
theorem verifyCallback_valid_iff_claim_false :
    ¬ ∀ (c : Option String) (t : String),
        ((verifyCallback c (some t)).truthy = false ↔ (c = none ∨ c = some t)) := by
  intro h
  have h2 := h (some "") "abc"
  simp [verifyCallback, JsVal.truthy] at h2

/-- C2 amended: `verifyCallback` reports a valid signature (a falsy,
non-mismatch result) iff no token is configured, or the configured token
is the empty string, or the configured and presented strings are exactly
equal. -/
theorem verifyCallback_valid_iff (c : Option String) (t : String) :
    ((verifyCallback c (some t)).truthy = false ↔
      (c = none ∨ c = some "" ∨ c = some t)) := by
  cases c with
  | none => simp [verifyCallback, JsVal.truthy]
  | some s =>
    by_cases hs : s.length = 0
    · have hse : s = "" := length_eq_zero_iff.mp hs
      subst hse
      simp [verifyCallback, JsVal.truthy]
    · have hse : s ≠ "" := fun h => hs (by simp [h])
      simp [verifyCallback, JsVal.truthy, hs, hse]

/-- C3: a webhook request with no `x-callback-token` header is answered
`400` with the fixed missing-header message, with an empty collaborator
trace (no `verifyCallback`, no Order Store call) and without the body
ever being inspected — the result is the same for every environment and
every body, present or absent. -/
theorem webhook_missing_header_rejects_first (env : Env)
    (b : Option XenditCallbackRequest) :
    webhook env { callbackToken := none, body := b } =
      { outcome := Outcome.responded 400 missingHeaderErrorMessage, calls := [] } := rfl

/-- C4: for the scenario notification
`{external_id: "ORD123", description: "tenant1_55", id: "inv-1"}` with the
order found in state `AddingItems` and the transition, payment-method
lookup and payment add all succeeding, the handler issues exactly one
`transitionToState` to `ArrangingPayment`, then exactly one
`addPaymentToOrder` whose method is the resolved method's code and whose
metadata is the full notification body, and answers `200 "Ok"`. -/
theorem webhook_success_scenario (env : Env) (amt : Int) (st : String) (tok : String)
    (o o2 o3 : Order) (pm : PaymentMethod)
    (htok : tok ≠ "")
    (_hconf : env.configuredToken = some tok)
    (hfind : env.findOneByCode "ORD123" = some o)
    (hstate : o.state = "AddingItems")
    (htrans : env.transitionToState o.id "ArrangingPayment" = TransitionResult.ok o2)
    (hpm : env.paymentMethods.find? (fun m => m.handlerCode == xenditHandlerCode) = some pm)
    (hadd : env.addPaymentToOrder o.id
        { method := pm.code,
          metadata := { id := "inv-1", amount := amt, status := st,
                        description := "tenant1_55", external_id := "ORD123" } } =
      AddPaymentResult.order o3) :
    webhook env { callbackToken := some tok,
                  body := some { id := "inv-1", amount := amt, status := st,
                                 description := "tenant1_55", external_id := "ORD123" } } =
      { outcome := Outcome.responded 200 "Ok",
        calls := [Call.verifyCallback tok, Call.findOneByCode "ORD123",
                  Call.transitionToState o.id "ArrangingPayment",
                  Call.addPaymentToOrder o.id
                    { method := pm.code,
                      metadata := { id := "inv-1", amount := amt, status := st,
                                    description := "tenant1_55",
                                    external_id := "ORD123" } }] } := by
  have hlen : ¬ tok.length = 0 := fun h => htok (length_eq_zero_iff.mp h)
  have hstate2 : o.state ≠ "ArrangingPayment" := by rw [hstate]; decide
  simp [webhook, hlen, verifyCallbackCall, hfind, webhookFromOrder, hstate2, htrans,
    webhookAfterTransition, getPaymentMethod, hpm, hadd]

/-- C4 witness: the scenario run in the concrete healthy environment. -/
theorem webhook_success_scenario_witness :
    webhook envOk { callbackToken := some "xyz", body := some notifScenario } =
      { outcome := Outcome.responded 200 "Ok",
        calls := [Call.verifyCallback "xyz", Call.findOneByCode "ORD123",
                  Call.transitionToState 7 "ArrangingPayment",
                  Call.addPaymentToOrder 7
                    { method := "xendit-pm", metadata := notifScenario }] } :=
  webhook_success_scenario envOk 55 "PAID" "xyz" ordAdding ordArranging ordArranging
    { code := "xendit-pm", handlerCode := "xendit" }
    (by decide) rfl rfl rfl rfl rfl rfl

/-- C5: for every located order, if it is already in `ArrangingPayment`
no `transitionToState` call is issued, and otherwise exactly one
`transitionToState` call targeting `ArrangingPayment` is issued and it
precedes every `addPaymentToOrder` call in the trace. -/
theorem webhook_transition_discipline (env : Env) (tok : String)
    (b : XenditCallbackRequest) (o : Order)
    (htok : tok ≠ "")
    (hfind : env.findOneByCode b.external_id = some o) :
    (o.state = "ArrangingPayment" →
      (webhook env { callbackToken := some tok, body := some b }).calls.filter
        Call.isTransition = []) ∧
    (o.state ≠ "ArrangingPayment" →
      (webhook env { callbackToken := some tok, body := some b }).calls.filter
        Call.isTransition = [Call.transitionToState o.id "ArrangingPayment"] ∧
      ((webhook env { callbackToken := some tok, body := some b }).calls.takeWhile
          (fun c => !c.isTransition)).all (fun c => !c.isAddPayment)) := by
  have hlen : ¬ tok.length = 0 := fun h => htok (length_eq_zero_iff.mp h)
  constructor
  · intro hap
    have hw : webhook env { callbackToken := some tok, body := some b } =
        webhookAfterTransition env b o [Call.verifyCallback tok,
          Call.findOneByCode b.external_id] := by
      simp [webhook, hlen, verifyCallbackCall, hfind, webhookFromOrder, hap]
    rw [hw]
    rcases afterTransition_calls env b o [Call.verifyCallback tok,
        Call.findOneByCode b.external_id] with hc | ⟨pm, _, hc⟩ <;>
      simp [hc, Call.isTransition]
  · intro hnap
    cases htr : env.transitionToState o.id "ArrangingPayment" with
    | stateError m =>
      have hw : webhook env { callbackToken := some tok, body := some b } =
          { outcome := Outcome.noResponse,
            calls := [Call.verifyCallback tok, Call.findOneByCode b.external_id,
              Call.transitionToState o.id "ArrangingPayment"] } := by
        simp [webhook, hlen, verifyCallbackCall, hfind, webhookFromOrder, hnap, htr]
      rw [hw]
      constructor <;> simp [Call.isTransition, Call.isAddPayment]
    | ok o2 =>
      have hw : webhook env { callbackToken := some tok, body := some b } =
          webhookAfterTransition env b o [Call.verifyCallback tok,
            Call.findOneByCode b.external_id,
            Call.transitionToState o.id "ArrangingPayment"] := by
        simp [webhook, hlen, verifyCallbackCall, hfind, webhookFromOrder, hnap, htr]
      rw [hw]
      rcases afterTransition_calls env b o [Call.verifyCallback tok,
          Call.findOneByCode b.external_id,
          Call.transitionToState o.id "ArrangingPayment"] with hc | ⟨pm, _, hc⟩ <;>
        (constructor <;> simp [hc, Call.isTransition, Call.isAddPayment])

/-- C5 witness: in the concrete healthy environment the located order is
in `AddingItems`, so exactly one transition call targeting
`ArrangingPayment` is issued and no payment-add call precedes it. -/
theorem webhook_transition_discipline_witness :
    (webhook envOk
        { callbackToken := some "xyz", body := some notifScenario }).calls.filter
      Call.isTransition = [Call.transitionToState 7 "ArrangingPayment"] ∧
    ((webhook envOk
        { callbackToken := some "xyz", body := some notifScenario }).calls.takeWhile
      (fun c => !c.isTransition)).all (fun c => !c.isAddPayment) :=
  (webhook_transition_discipline envOk "xyz" notifScenario ordAdding
      (by decide) rfl).2 (by decide)

/-- C6: when the order lookup returns nothing, the handler throws an
error whose message names the missing order code, and the trace contains
no `transitionToState` and no `addPaymentToOrder` call. -/
theorem webhook_order_not_found (env : Env) (tok : String) (b : XenditCallbackRequest)
    (htok : tok ≠ "")
    (hfind : env.findOneByCode b.external_id = none) :
    webhook env { callbackToken := some tok, body := some b } =
      { outcome := Outcome.threw (ThrownError.orderNotFound
          ("Unable to find order " ++ b.external_id ++
            ", unable to settle payment " ++ b.id ++ "!")),
        calls := [Call.verifyCallback tok, Call.findOneByCode b.external_id] } := by
  have hlen : ¬ tok.length = 0 := fun h => htok (length_eq_zero_iff.mp h)
  simp [webhook, hlen, verifyCallbackCall, hfind]

/-- C6 witness: the scenario notification against the environment whose
order lookup finds nothing. -/
theorem webhook_order_not_found_witness :
    webhook envNoOrder { callbackToken := some "xyz", body := some notifScenario } =
      { outcome := Outcome.threw (ThrownError.orderNotFound
          "Unable to find order ORD123, unable to settle payment inv-1!"),
        calls := [Call.verifyCallback "xyz", Call.findOneByCode "ORD123"] } :=
  webhook_order_not_found envNoOrder "xyz" notifScenario (by decide) rfl

/-- C7: when the Order Store rejects the transition to
`ArrangingPayment` with an `OrderStateTransitionError`, the handler
stops with no exception (it merely returns, sending no response) and the
trace contains no `addPaymentToOrder` call. -/
theorem webhook_transition_rejected_no_throw (env : Env) (tok : String)
    (b : XenditCallbackRequest) (o : Order) (msg : String)
    (htok : tok ≠ "")
    (hfind : env.findOneByCode b.external_id = some o)
    (hstate : o.state ≠ "ArrangingPayment")
    (htrans : env.transitionToState o.id "ArrangingPayment" =
      TransitionResult.stateError msg) :
    webhook env { callbackToken := some tok, body := some b } =
      { outcome := Outcome.noResponse,
        calls := [Call.verifyCallback tok, Call.findOneByCode b.external_id,
                  Call.transitionToState o.id "ArrangingPayment"] } := by
  have hlen : ¬ tok.length = 0 := fun h => htok (length_eq_zero_iff.mp h)
  simp [webhook, hlen, verifyCallbackCall, hfind, webhookFromOrder, hstate, htrans]

/-- C7 witness: the scenario notification against the environment that
rejects every transition. -/
theorem webhook_transition_rejected_no_throw_witness :
    webhook envTransitionRejected
        { callbackToken := some "xyz", body := some notifScenario } =
      { outcome := Outcome.noResponse,
        calls := [Call.verifyCallback "xyz", Call.findOneByCode "ORD123",
                  Call.transitionToState 7 "ArrangingPayment"] } :=
  webhook_transition_rejected_no_throw envTransitionRejected "xyz" notifScenario
    ordAdding "cannot transition" (by decide) rfl (by decide) rfl

/-- C8: when no configured payment method's handler code equals the
Xendit handler code, the handler — after the state transition has been
handled (the order already in `ArrangingPayment`, or successfully
transitioned) — throws the `InternalServerError`
payment-method-missing error, distinct from the business-data
`orderNotFound` error, and the trace contains no `addPaymentToOrder`
call. -/
theorem webhook_payment_method_missing (env : Env) (tok : String)
    (b : XenditCallbackRequest) (o : Order)
    (htok : tok ≠ "")
    (hfind : env.findOneByCode b.external_id = some o)
    (hready : o.state = "ArrangingPayment" ∨
      ∃ o2, env.transitionToState o.id "ArrangingPayment" = TransitionResult.ok o2)
    (hnom : env.paymentMethods.find? (fun m => m.handlerCode == xenditHandlerCode) = none) :
    (webhook env { callbackToken := some tok, body := some b }).outcome =
      Outcome.threw (ThrownError.internalServerError
        ("[" ++ loggerCtx ++ "] Could not find Xendit PaymentMethod")) ∧
    ((webhook env { callbackToken := some tok, body := some b }).calls.all
      (fun c => !c.isAddPayment)) := by
  have hlen : ¬ tok.length = 0 := fun h => htok (length_eq_zero_iff.mp h)
  have hga : getPaymentMethod env.paymentMethods =
      Except.error (ThrownError.internalServerError
        ("[" ++ loggerCtx ++ "] Could not find Xendit PaymentMethod")) := by
    simp [getPaymentMethod, hnom]
  rcases hready with hap | ⟨o2, htr⟩
  · simp [webhook, hlen, verifyCallbackCall, hfind, webhookFromOrder, hap,
      webhookAfterTransition, hga, Call.isAddPayment]
  · by_cases hst : o.state = "ArrangingPayment"
    · simp [webhook, hlen, verifyCallbackCall, hfind, webhookFromOrder, hst,
        webhookAfterTransition, hga, Call.isAddPayment]
    · simp [webhook, hlen, verifyCallbackCall, hfind, webhookFromOrder, hst, htr,
        webhookAfterTransition, hga, Call.isAddPayment]

/-- C8 witness: the scenario notification against the environment with
the order already in `ArrangingPayment` and no registered payment
method. -/
theorem webhook_payment_method_missing_witness :
    (webhook envNoPaymentMethod
        { callbackToken := some "xyz", body := some notifScenario }).outcome =
      Outcome.threw (ThrownError.internalServerError
        "[XenditPlugin] Could not find Xendit PaymentMethod") ∧
    ((webhook envNoPaymentMethod
        { callbackToken := some "xyz", body := some notifScenario }).calls.all
      (fun c => !c.isAddPayment)) :=
  webhook_payment_method_missing envNoPaymentMethod "xyz" notifScenario ordArranging
    (by decide) rfl (Or.inl rfl) rfl

/-- C9 counterexample: the claim says neither refund entry point ever
signals a refund as issued. The payment-method handler's `createRefund`
does: applied to a payment with transaction id `"tx-1"` it returns a
`CreateRefundResult` in state `"Settled"`, reporting the refund as
settled to the caller. -/
theorem handler_createRefund_reports_settled :
    handlerCreateRefund { transactionId := "tx-1" } =
      { state := "Settled", transactionId := "tx-1" } ∧
    ({ state := "Settled", transactionId := "tx-1" } : CreateRefundResult).state =
      "Settled" :=
  ⟨rfl, rfl⟩

/-- C9 amended: `XenditService.createRefund` is a no-op returning nothing
for every input, and the handler's `createRefund`, while contacting no
provider, always returns a `"Settled"` result echoing the payment's
transaction id — so it does report the refund as settled to the caller. -/
theorem createRefund_behaviour :
    (∀ (pid : String) (amt : Int), XenditService.createRefund pid amt = ()) ∧
    (∀ p : Payment, handlerCreateRefund p =
      { state := "Settled", transactionId := p.transactionId }) :=
  ⟨fun _ _ => rfl, fun _ => rfl⟩

/-- C10: when the configured callback token is the empty string,
`verifyCallback` short-circuits on its zero length and reports a valid
(falsy) result for every presented token, including an absent one —
exactly as if no token were configured. -/
theorem verifyCallback_empty_token_bypasses (t : Option String) :
    (verifyCallback (some "") t).truthy = false := rfl

end Xendit
